import Mathlib

/-!
Verification of the stateful workflow-graph engine used by the langchain
teaching labs: state-merge semantics, sequential chains, conditional
hand-off routing, parallel fan-out/fan-in, checkpointed sessions, and the
toy lookup / webhook integrations.

Node functions, prompts, routing functions and databases are translated
directly from the Python sources under `src/`. The graph execution engine
itself (LangGraph's `StateGraph.compile().invoke`, its per-field state
merge, and the `create_agent` checkpointer runtime) is third-party library
code not present under `src/`; those definitions are modelled from the
spec and are marked as such in their doc comments.

External text-generation collaborators (LLMs) are modelled as arbitrary
functions from a message list to the complete response text; streaming
responses are represented by the concatenation of their fragments, which
the spec guarantees equals the complete response.
-/

/-- The character class removed by Python's `str.strip()` (restricted to the
ASCII whitespace characters, which is all that occurs in this program). -/
def pyIsSpace (c : Char) : Bool :=
  c = ' ' || c = '\t' || c = '\n' || c = '\r' || c = '\x0b' || c = '\x0c'

/-- Python's `str.strip()`: drop leading and trailing whitespace. -/
def pyStrip (s : String) : String :=
  String.mk (((s.data.dropWhile pyIsSpace).reverse.dropWhile pyIsSpace).reverse)

/-- Python's `str.lower()` (character-wise; ASCII letters, which is all the
routing logic ever compares). -/
def pyLower (s : String) : String := String.mk (s.data.map Char.toLower)

/-- Python's `str.upper()` (character-wise). -/
def pyUpper (s : String) : String := String.mk (s.data.map Char.toUpper)

/-- Whether `pat` is a leading segment of `l` (Python's `startswith` on
character lists; used to implement substring search). -/
def listStartsWith : List Char → List Char → Bool
  | [], _ => true
  | _ :: _, [] => false
  | p :: ps, c :: cs => p = c && listStartsWith ps cs

/-- Whether `pat` occurs contiguously inside `l`. -/
def listInfixOf (pat : List Char) : List Char → Bool
  | [] => pat.isEmpty
  | c :: t => listStartsWith pat (c :: t) || listInfixOf pat t

/-- Python's `pat in s` substring test. -/
def strContains (s pat : String) : Bool := listInfixOf pat.data s.data

/-- Python's `"c" * n` string repetition (for a single character). -/
def strRepeat (c : Char) (n : Nat) : String := String.mk (List.replicate n c)

/-- The string `pat` occurs contiguously inside `s`. -/
def ContainsStr (pat s : String) : Prop := ∃ pre post : String, s = pre ++ pat ++ post

/-- A chat message sent to the text-generation collaborator
(`SystemMessage` / `HumanMessage` of langchain_core). -/
inductive Message where
  | system (content : String)
  | human (content : String)
deriving DecidableEq

/-- The external text-generation collaborator: maps a message list to the
complete response text (for streaming calls, the concatenation of all
fragments). -/
abbrev LLM := List Message → String

namespace Lab6

/-- State schema of the translation workflow
(`TranslationState` in `src/lab6/lab6_multi_agent_concurrent.py`). -/
structure TranslationState where
  source_content : String
  chinese_translation : String
  japanese_translation : String
  french_translation : String
  aggregated_result : String
deriving DecidableEq

/-- A node's partial update to `TranslationState`: the returned dict
mentions a subset of the fields. -/
structure TranslationUpdate where
  source_content : Option String := none
  chinese_translation : Option String := none
  japanese_translation : Option String := none
  french_translation : Option String := none
  aggregated_result : Option String := none
deriving DecidableEq

/-- Modelled from the spec: the engine's state merge (spec section 4.1), the
part of LangGraph's `StateGraph` runtime not present under `src/`. Each key
present in the update overwrites the current value; unmentioned keys are
unchanged. -/
def applyUpdate (s : TranslationState) (u : TranslationUpdate) : TranslationState where
  source_content := u.source_content.getD s.source_content
  chinese_translation := u.chinese_translation.getD s.chinese_translation
  japanese_translation := u.japanese_translation.getD s.japanese_translation
  french_translation := u.french_translation.getD s.french_translation
  aggregated_result := u.aggregated_result.getD s.aggregated_result

/-- The updates `u1` and `u2` write disjoint field sets. -/
def DisjointUpdates (u1 u2 : TranslationUpdate) : Prop :=
  (u1.source_content = none ∨ u2.source_content = none) ∧
  (u1.chinese_translation = none ∨ u2.chinese_translation = none) ∧
  (u1.japanese_translation = none ∨ u2.japanese_translation = none) ∧
  (u1.french_translation = none ∨ u2.french_translation = none) ∧
  (u1.aggregated_result = none ∨ u2.aggregated_result = none)

/-- System prompt of `chinese_translator_agent`. -/
def chinese_system_prompt : String :=
  "你是一位專業的英文到繁體中文翻譯專家。\n\n你的任務是將產品手冊從英文翻譯成繁體中文。\n\n翻譯原則：\n1. 保持原文的專業語氣和風格\n2. 使用繁體中文，符合台灣用語習慣\n3. 技術術語使用業界通用的中文翻譯\n4. 確保翻譯流暢自然，易於理解\n5. 保留產品名稱的英文原文（可加註中文說明）\n\n請直接輸出翻譯結果，不需要額外說明。"

/-- Messages sent to the collaborator by `chinese_translator_agent`. -/
def chinese_messages (state : TranslationState) : List Message :=
  [Message.system chinese_system_prompt,
   Message.human ("請將以下產品手冊翻譯成繁體中文：\n\n" ++ state.source_content)]

/-- The complete Chinese translation produced for `state` (concatenation of
the streamed chunks). -/
def chinese_text (llm : LLM) (state : TranslationState) : String :=
  llm (chinese_messages state)

/-- Node `chinese_translator_agent`: writes only `chinese_translation`. -/
def chinese_translator_agent (llm : LLM) (state : TranslationState) : TranslationUpdate :=
  { chinese_translation := some (chinese_text llm state) }

/-- System prompt of `japanese_translator_agent`. -/
def japanese_system_prompt : String :=
  "あなたはプロの英日翻訳者です。\n\n製品マニュアルを英語から日本語に翻訳することがあなたの任務です。\n\n翻訳の原則：\n1. 原文のプロフェッショナルなトーンとスタイルを維持する\n2. 自然で読みやすい日本語を使用する\n3. 技術用語は業界標準の日本語訳を使用する\n4. 敬語を適切に使用し、丁寧な表現を心がける\n5. 製品名は英語のまま残す（必要に応じて日本語の説明を追加）\n\n翻訳結果のみを出力してください。追加の説明は不要です。"

/-- Messages sent to the collaborator by `japanese_translator_agent`. -/
def japanese_messages (state : TranslationState) : List Message :=
  [Message.system japanese_system_prompt,
   Message.human ("以下の製品マニュアルを日本語に翻訳してください：\n\n" ++ state.source_content)]

/-- The complete Japanese translation produced for `state`. -/
def japanese_text (llm : LLM) (state : TranslationState) : String :=
  llm (japanese_messages state)

/-- Node `japanese_translator_agent`: writes only `japanese_translation`. -/
def japanese_translator_agent (llm : LLM) (state : TranslationState) : TranslationUpdate :=
  { japanese_translation := some (japanese_text llm state) }

/-- System prompt of `french_translator_agent`. -/
def french_system_prompt : String :=
  "Vous êtes un traducteur professionnel anglais-français.\n\nVotre tâche est de traduire le manuel du produit de l\x27anglais vers le français.\n\nPrincipes de traduction :\n1. Maintenir le ton professionnel et le style du texte original\n2. Utiliser un français naturel et fluide\n3. Utiliser les termes techniques standards en français\n4. Adapter les expressions idiomatiques au contexte français\n5. Conserver les noms de produits en anglais (avec explication en français si nécessaire)\n\nVeuillez fournir uniquement la traduction, sans explications supplémentaires."

/-- Messages sent to the collaborator by `french_translator_agent`. -/
def french_messages (state : TranslationState) : List Message :=
  [Message.system french_system_prompt,
   Message.human ("Veuillez traduire le manuel produit suivant en français :\n\n" ++ state.source_content)]

/-- The complete French translation produced for `state`. -/
def french_text (llm : LLM) (state : TranslationState) : String :=
  llm (french_messages state)

/-- Node `french_translator_agent`: writes only `french_translation`. -/
def french_translator_agent (llm : LLM) (state : TranslationState) : TranslationUpdate :=
  { french_translation := some (french_text llm state) }

/-- Node `aggregator`: reads all translations and writes only
`aggregated_result`; the report text follows the f-string of the source. -/
def aggregator (state : TranslationState) : TranslationUpdate :=
  let aggregated :=
    "\n" ++ strRepeat '=' 60 ++ "\n多語言翻譯結果彙整\n" ++ strRepeat '=' 60 ++
    "\n\n【原文 (English)】\n" ++ state.source_content ++
    "\n\n" ++ strRepeat '─' 60 ++ "\n\n【繁體中文翻譯】\n" ++ state.chinese_translation ++
    "\n\n" ++ strRepeat '─' 60 ++ "\n\n【日本語翻訳】\n" ++ state.japanese_translation ++
    "\n\n" ++ strRepeat '─' 60 ++ "\n\n【Traduction française】\n" ++ state.french_translation ++
    "\n\n" ++ strRepeat '=' 60 ++ "\n翻譯完成！共產生 3 種語言版本。\n" ++ strRepeat '=' 60 ++ "\n"
  { aggregated_result := some aggregated }

/-- The three fan-out branch nodes added by `create_translation_workflow`. -/
inductive BranchNode where
  | chinese_translator
  | japanese_translator
  | french_translator
deriving DecidableEq

/-- The node name each branch is registered under in `add_node`. -/
def branchName : BranchNode → String
  | .chinese_translator => "chinese_translator"
  | .japanese_translator => "japanese_translator"
  | .french_translator => "french_translator"

/-- The node function registered for each branch. -/
def branchAgent : BranchNode → LLM → TranslationState → TranslationUpdate
  | .chinese_translator => chinese_translator_agent
  | .japanese_translator => japanese_translator_agent
  | .french_translator => french_translator_agent

/-- All branches activated by the fan-out from START. -/
def allBranches : List BranchNode :=
  [.chinese_translator, .japanese_translator, .french_translator]

/-- Merge the updates of the activated branches into `s`, in the order the
branches complete; every branch read the pre-fan-out snapshot `s0`. -/
def mergeBranches (llm : LLM) (s0 : TranslationState)
    (completionOrder : List BranchNode) (s : TranslationState) : TranslationState :=
  completionOrder.foldl (fun s b => applyUpdate s (branchAgent b llm s0)) s

/-- Modelled from the spec: execution of the compiled graph built by
`create_translation_workflow` (the LangGraph engine is not under `src/`).
START fans out to the three translators, which each receive the pre-fan-out
state; their updates are merged in completion order (a parameter, since no
inter-branch order is guaranteed); the join node `aggregator` then runs
exactly once on the merged state. Returns the final state and the trace of
executed node names. -/
def runTranslationWorkflow (llm : LLM) (completionOrder : List BranchNode)
    (s0 : TranslationState) : TranslationState × List String :=
  let merged := mergeBranches llm s0 completionOrder s0
  (applyUpdate merged (aggregator merged), completionOrder.map branchName ++ ["aggregator"])

/-- The initial state built by `process_translation_request`. -/
def initialTranslationState (content : String) : TranslationState :=
  { source_content := content
    chinese_translation := ""
    japanese_translation := ""
    french_translation := ""
    aggregated_result := "" }

/-- Function `process_translation_request`: invoke the workflow on the initial state
and return the `aggregated_result` field of the final state. -/
def process_translation_request (llm : LLM) (completionOrder : List BranchNode)
    (content : String) : String :=
  (runTranslationWorkflow llm completionOrder (initialTranslationState content)).1.aggregated_result

end Lab6

namespace Lab4

/-- State schema of the contract-review chain
(`ContractReviewState` in `src/lab4/lab4_multi_agent_sequential.py`). -/
structure ContractReviewState where
  contract_content : String
  text_review : String
  legal_review : String
  revision_suggestions : String
deriving DecidableEq

/-- A node's partial update to `ContractReviewState`. -/
structure ContractReviewUpdate where
  contract_content : Option String := none
  text_review : Option String := none
  legal_review : Option String := none
  revision_suggestions : Option String := none
deriving DecidableEq

/-- Modelled from the spec: the engine's state merge (spec section 4.1) for
the contract-review graph; keys present in the update overwrite, all other
keys are unchanged. -/
def applyUpdate (s : ContractReviewState) (u : ContractReviewUpdate) : ContractReviewState where
  contract_content := u.contract_content.getD s.contract_content
  text_review := u.text_review.getD s.text_review
  legal_review := u.legal_review.getD s.legal_review
  revision_suggestions := u.revision_suggestions.getD s.revision_suggestions

/-- System prompt of `agent1_text_review`. -/
def agent1_system_prompt : String :=
  "你是一位專業的合約文字審查專家。\n\n你的任務是審查合約內容的文字表達，找出以下問題：\n1. 文字表達不清晰的地方\n2. 可能產生歧義的用語\n3. 模糊不清或定義不明確的條款\n4. 潛在的灰色地帶\n\n請以條列方式說明發現的問題，並引用具體的條款內容。\n最後給出文字清晰度的整體評分（1-10分）。"

/-- Messages sent to the collaborator by `agent1_text_review`. -/
def agent1_messages (state : ContractReviewState) : List Message :=
  [Message.system agent1_system_prompt,
   Message.human ("請審查以下合約內容：\n\n" ++ state.contract_content)]

/-- Node `agent1_text_review`: writes only `text_review`. -/
def agent1_text_review (llm : LLM) (state : ContractReviewState) : ContractReviewUpdate :=
  { text_review := some (llm (agent1_messages state)) }

/-- System prompt of `agent2_legal_review`. -/
def agent2_system_prompt : String :=
  "你是一位專業的法律風險評估專家。\n\n你的任務是評估合約內容可能帶來的法律風險：\n1. 不平等條款（明顯偏向一方的條款）\n2. 責任限制是否合理\n3. 可能違反消費者保護法或其他法規的條款\n4. 免責條款是否過於廣泛\n5. 權利義務是否對等\n\n請針對每個風險項目說明：\n- 問題條款的具體內容\n- 風險等級（高/中/低）\n- 可能的法律後果\n\n最後給出整體法律風險評分（1-10分，10分為風險最高）。"

/-- The user content built by `agent2_legal_review` from the current state;
`state.get` on a schema field that is always present reduces to the field
itself (the initial state populates every field). -/
def agent2_user_content (state : ContractReviewState) : String :=
  "請評估以下合約的法律風險：\n\n【合約內容】\n" ++ state.contract_content ++
  "\n\n【文字審查意見（參考）】\n" ++ state.text_review ++ "\n"

/-- Messages sent to the collaborator by `agent2_legal_review`. -/
def agent2_messages (state : ContractReviewState) : List Message :=
  [Message.system agent2_system_prompt, Message.human (agent2_user_content state)]

/-- Node `agent2_legal_review`: reads `contract_content` and `text_review`,
writes only `legal_review`. -/
def agent2_legal_review (llm : LLM) (state : ContractReviewState) : ContractReviewUpdate :=
  { legal_review := some (llm (agent2_messages state)) }

/-- System prompt of `agent3_revision_suggestions`. -/
def agent3_system_prompt : String :=
  "你是一位專業的合約修訂顧問。\n\n根據文字審查和法律風險評估的結果，你需要提出具體的修正建議：\n1. 針對每個問題條款提出修改建議\n2. 提供修改前後的對照\n3. 說明修改的理由\n4. 按照優先順序排列建議（從最重要到次要）\n\n請確保修改後的條款：\n- 文字清晰無歧義\n- 權利義務對等\n- 符合相關法規\n- 保護雙方合法權益"

/-- The user content built by `agent3_revision_suggestions`. -/
def agent3_user_content (state : ContractReviewState) : String :=
  "請根據以下審查結果，提出合約修正建議：\n\n【原始合約內容】\n" ++ state.contract_content ++
  "\n\n【文字審查結果】\n" ++ state.text_review ++
  "\n\n【法律風險評估結果】\n" ++ state.legal_review ++ "\n"

/-- Messages sent to the collaborator by `agent3_revision_suggestions`. -/
def agent3_messages (state : ContractReviewState) : List Message :=
  [Message.system agent3_system_prompt, Message.human (agent3_user_content state)]

/-- Node `agent3_revision_suggestions`: reads all prior results, writes only
`revision_suggestions`. -/
def agent3_revision_suggestions (llm : LLM) (state : ContractReviewState) : ContractReviewUpdate :=
  { revision_suggestions := some (llm (agent3_messages state)) }

/-- The state after the first node of the chain has run and its update has
been merged. -/
def stateAfterAgent1 (llm : LLM) (s0 : ContractReviewState) : ContractReviewState :=
  applyUpdate s0 (agent1_text_review llm s0)

/-- The state after the second node has run on the merged state. -/
def stateAfterAgent2 (llm : LLM) (s0 : ContractReviewState) : ContractReviewState :=
  applyUpdate (stateAfterAgent1 llm s0) (agent2_legal_review llm (stateAfterAgent1 llm s0))

/-- Modelled from the spec: execution of the compiled graph built by
`create_contract_review_workflow` (the LangGraph engine is not under
`src/`). The chain START → text_review → legal_review →
revision_suggestions → END runs strictly sequentially: each node's update
is merged before the next node reads the state. -/
def runContractReviewWorkflow (llm : LLM) (s0 : ContractReviewState) : ContractReviewState :=
  applyUpdate (stateAfterAgent2 llm s0) (agent3_revision_suggestions llm (stateAfterAgent2 llm s0))

/-- The initial state built in `main` before `workflow.invoke`. -/
def initialContractState (contract : String) : ContractReviewState :=
  { contract_content := contract
    text_review := ""
    legal_review := ""
    revision_suggestions := "" }

end Lab4

namespace Lab5

/-- State schema of the support workflow
(`SupportState` in `src/lab5/lab5_multi_agent_handoff.py`). -/
structure SupportState where
  user_question : String
  question_category : String
  agent_response : String
deriving DecidableEq

/-- A node's partial update to `SupportState`. -/
structure SupportUpdate where
  user_question : Option String := none
  question_category : Option String := none
  agent_response : Option String := none
deriving DecidableEq

/-- Modelled from the spec: the engine's state merge (spec section 4.1) for
the support graph. -/
def applyUpdate (s : SupportState) (u : SupportUpdate) : SupportState where
  user_question := u.user_question.getD s.user_question
  question_category := u.question_category.getD s.question_category
  agent_response := u.agent_response.getD s.agent_response

/-- The category set the triage node validates against. -/
def valid_categories : List String := ["hr", "it", "compliance"]

/-- System prompt of `triage_agent`. -/
def triage_system_prompt : String :=
  "你是一個企業內部支援系統的分流代理（Triage Agent）。\n你的任務是分析員工的問題，判斷應該轉交給哪個部門處理。\n\n分類規則：\n1. hr - 人資相關：薪資、福利、假期、請假、考勤、招聘、培訓、績效考核、員工關係等\n2. it - IT 相關：系統使用、帳號管理、密碼重設、軟體安裝、硬體問題、網路連線、VPN、電子郵件等\n3. compliance - 合規相關：法規遵循、公司政策、內部稽核、風險管理、資料保護、保密協議等\n\n請只回覆一個單詞：hr、it 或 compliance\n不要包含任何其他文字或解釋。"

/-- Messages sent to the collaborator by `triage_agent`. -/
def triage_messages (user_question : String) : List Message :=
  [Message.system triage_system_prompt,
   Message.human ("請分類以下問題：" ++ user_question)]

/-- Node `triage_agent`: classifies the question; an answer outside
`valid_categories` (after strip + lower) falls back to `"it"`. Writes only
`question_category`. -/
def triage_agent (llm : LLM) (state : SupportState) : SupportUpdate :=
  let category := pyLower (pyStrip (llm (triage_messages state.user_question)))
  let category := if valid_categories.contains category then category else "it"
  { question_category := some category }

/-- System prompt of `hr_agent`. -/
def hr_system_prompt : String :=
  "你是企業內部的人資支援專員（HR Agent）。\n你專門負責回答員工關於人資相關的問題。\n\n你的專業領域包括：\n- 薪資與獎金：薪資結構、發薪日期、年終獎金計算方式等\n- 福利制度：保險、健檢、員工優惠、退休金等\n- 假期管理：特休、病假、事假、婚喪假等請假規定\n- 考勤制度：上下班時間、彈性工時、遲到早退規定\n- 招聘流程：內部轉調、升遷管道、職缺資訊\n- 培訓發展：教育訓練、進修補助、職涯發展\n\n請以專業、友善的態度回答問題。\n如果問題超出你的專業範圍，請建議員工聯繫其他部門。"

/-- Messages sent to the collaborator by `hr_agent`. -/
def hr_messages (user_question : String) : List Message :=
  [Message.system hr_system_prompt, Message.human user_question]

/-- Node `hr_agent`: writes only `agent_response`. -/
def hr_agent (llm : LLM) (state : SupportState) : SupportUpdate :=
  { agent_response := some (llm (hr_messages state.user_question)) }

/-- System prompt of `it_agent`. -/
def it_system_prompt : String :=
  "你是企業內部的 IT 支援專員（IT Agent）。\n你專門負責回答員工關於 IT 相關的問題。\n\n你的專業領域包括：\n- 帳號管理：帳號申請、密碼重設、權限設定、AD 帳號\n- 系統使用：ERP、CRM、HR系統、內部系統操作說明\n- 軟體支援：Office 365、VPN、防毒軟體、常用軟體安裝\n- 硬體問題：電腦故障、印表機、視訊會議設備\n- 網路連線：Wi-Fi、有線網路、VPN 連線問題\n- 資訊安全：可疑郵件處理、資料備份、安全軟體更新\n\n請以專業、耐心的態度回答問題。\n對於技術問題，請提供step-by-step的操作步驟。\n如果需要現場支援，請引導員工提交 IT 服務單。"

/-- Messages sent to the collaborator by `it_agent`. -/
def it_messages (user_question : String) : List Message :=
  [Message.system it_system_prompt, Message.human user_question]

/-- Node `it_agent`: writes only `agent_response`. -/
def it_agent (llm : LLM) (state : SupportState) : SupportUpdate :=
  { agent_response := some (llm (it_messages state.user_question)) }

/-- System prompt of `compliance_agent`. -/
def compliance_system_prompt : String :=
  "你是企業內部的合規支援專員（Compliance Agent）。\n你專門負責回答員工關於合規相關的問題。\n\n你的專業領域包括：\n- 法規遵循：相關法律法規、產業規範、監管要求\n- 公司政策：行為準則、道德規範、內部規章制度\n- 資料保護：個資法、GDPR、客戶資料處理規範\n- 保密協議：NDA、競業禁止、智慧財產權保護\n- 利益衝突：申報程序、迴避原則、禮品收受規定\n- 內部稽核：稽核流程、自我評估、改善計畫\n- 風險管理：風險識別、風險評估、風險應對措施\n\n請以專業、謹慎的態度回答問題。\n對於涉及法律風險的問題，請建議員工諮詢法務部門。\n強調合規的重要性，但避免使用過於嚴厲的語氣。"

/-- Messages sent to the collaborator by `compliance_agent`. -/
def compliance_messages (user_question : String) : List Message :=
  [Message.system compliance_system_prompt, Message.human user_question]

/-- Node `compliance_agent`: writes only `agent_response`. -/
def compliance_agent (llm : LLM) (state : SupportState) : SupportUpdate :=
  { agent_response := some (llm (compliance_messages state.user_question)) }

/-- Router `route_to_specialist`: pure router on `question_category`; its declared
default (the final `else`) is the compliance agent only for the `"it"`-vs
rest distinction made upstream — every category other than `"hr"` and
`"it"` routes to `compliance_agent`. -/
def route_to_specialist (state : SupportState) : String :=
  if state.question_category = "hr" then "hr_agent"
  else if state.question_category = "it" then "it_agent"
  else "compliance_agent"

/-- The state after `triage_agent` has run and its update has been merged. -/
def triagedState (llm : LLM) (s0 : SupportState) : SupportState :=
  applyUpdate s0 (triage_agent llm s0)

/-- Modelled from the spec: the engine's dispatch on the node name returned
by the conditional edge's router — the update produced by the one
specialist node the router selected. -/
def specialist_update (llm : LLM) (s1 : SupportState) : SupportUpdate :=
  if route_to_specialist s1 = "hr_agent" then hr_agent llm s1
  else if route_to_specialist s1 = "it_agent" then it_agent llm s1
  else compliance_agent llm s1

/-- Modelled from the spec: execution of the compiled graph built by
`create_support_workflow` (the LangGraph engine is not under `src/`).
START → triage_agent, then the conditional edge resolved by
`route_to_specialist` dispatches to exactly one specialist node, then END.
Returns the final state and the trace of executed node names. -/
def runSupportWorkflow (llm : LLM) (s0 : SupportState) : SupportState × List String :=
  (applyUpdate (triagedState llm s0) (specialist_update llm (triagedState llm s0)),
   ["triage_agent", route_to_specialist (triagedState llm s0)])

/-- The initial state built by `process_support_request`. -/
def initialSupportState (user_question : String) : SupportState :=
  { user_question := user_question
    question_category := ""
    agent_response := "" }

/-- Function `process_support_request`: invoke the workflow and return the
`agent_response` field of the final state. -/
def process_support_request (llm : LLM) (user_question : String) : String :=
  (runSupportWorkflow llm (initialSupportState user_question)).1.agent_response

end Lab5

namespace Lab3

/-- A message in the checkpointed conversation state of
`src/lab3/lab3_single_agent.py` (HumanMessage / AIMessage). -/
inductive ChatMessage where
  | user (content : String)
  | ai (content : String)
deriving DecidableEq

/-- The agent's text-generation collaborator: given the system prompt and
the conversation so far (ending in the new user turn), produce the
assistant's complete reply (tool use happens inside this call). -/
abbrev AgentLLM := String → List ChatMessage → String

/-- System prompt installed by `MarketingAgentWithMemory.__init__`. -/
def marketing_system_prompt : String :=
  "你是一位專業的行銷文案撰寫專家，擅長創作吸引人且具說服力的行銷內容。\n\n你的專長包括：\n1. 撰寫吸引眼球的標題，能在3秒內抓住讀者注意力\n2. 創作具有情感連結的文案，讓讀者產生共鳴\n3. 設計有效的行動呼籲（Call to Action）\n4. 根據不同目標受眾調整文案風格\n\n當使用者提供產品資訊時，請幫助生成專業的行銷文案。\n你可以記住之前的對話內容，並根據使用者的反饋進行修改和優化。"

/-- Class `MarketingAgentWithMemory`: owns the `InMemorySaver` checkpointer (a
map from `thread_id` to the saved conversation state) and the current
thread id. -/
structure MarketingAgentWithMemory where
  checkpointer : String → Option (List ChatMessage)
  current_thread_id : Option String

/-- A freshly constructed agent: empty `InMemorySaver`, no current thread. -/
def newAgent : MarketingAgentWithMemory :=
  { checkpointer := fun _ => none, current_thread_id := none }

/-- Method `new_conversation`: install a freshly generated uuid as the current
thread id (the uuid generator is an external source, passed as `freshId`). -/
def new_conversation (agent : MarketingAgentWithMemory) (freshId : String) :
    MarketingAgentWithMemory × String :=
  ({ agent with current_thread_id := some freshId }, freshId)

/-- Modelled from the spec: `stream_chat`. The thread-id selection follows
the source (note Python truthiness: an empty-string argument is falsy);
the effect of `agent.stream` under a checkpointer — load the state saved
for the thread id, merge in the new user message, generate, save the state
extended with the assistant reply — is the checkpoint load/save round-trip
of spec section 4.5, since the `create_agent` runtime is not under `src/`. -/
def stream_chat (llm : AgentLLM) (agent : MarketingAgentWithMemory)
    (user_message : String) (thread_id : Option String) (freshId : String) :
    MarketingAgentWithMemory :=
  let tid :=
    match thread_id with
    | some t => if t ≠ "" then t else (agent.current_thread_id.getD freshId)
    | none => agent.current_thread_id.getD freshId
  let prior := (agent.checkpointer tid).getD []
  let conversation := prior ++ [ChatMessage.user user_message]
  let response := llm marketing_system_prompt conversation
  let updated := conversation ++ [ChatMessage.ai response]
  { checkpointer := fun t => if t = tid then some updated else agent.checkpointer t
    current_thread_id := some tid }

/-- Modelled from the spec: `get_conversation_history` — read the
checkpointed state's `messages` for the given (or current) thread id,
returning `[]` when there is none (`agent.get_state` is library code). -/
def get_conversation_history (agent : MarketingAgentWithMemory)
    (thread_id : Option String) : List ChatMessage :=
  let tid :=
    match thread_id with
    | some t => if t ≠ "" then some t else agent.current_thread_id
    | none => agent.current_thread_id
  match tid with
  | none => []
  | some t => (agent.checkpointer t).getD []

end Lab3

namespace Linebot

/-- State schema of the support workflow ported into
`src/linebot/linebot_agent.py`. -/
structure SupportState where
  user_question : String
  question_category : String
  agent_response : String
deriving DecidableEq

/-- A node's partial update to `SupportState`. -/
structure SupportUpdate where
  user_question : Option String := none
  question_category : Option String := none
  agent_response : Option String := none
deriving DecidableEq

/-- Modelled from the spec: the engine's state merge (spec section 4.1) for
the linebot support graph. -/
def applyUpdate (s : SupportState) (u : SupportUpdate) : SupportState where
  user_question := u.user_question.getD s.user_question
  question_category := u.question_category.getD s.question_category
  agent_response := u.agent_response.getD s.agent_response

/-- A collaborator call that can fail: `Except.error` models a raised
exception (network failure, timeout, malformed response). -/
abbrev FallibleLLM := List Message → Except String String

/-- The category set the triage node validates against. -/
def valid_categories : List String := ["hr", "it", "compliance"]

/-- System prompt of the linebot `triage_agent`. -/
def triage_system_prompt : String :=
  "你是一個企業內部支援系統的分流代理（Triage Agent）。\n你的任務是分析員工的問題，判斷應該轉交給哪個部門處理。\n\n分類規則：\n1. hr - 人資相關：薪資、福利、假期、請假、考勤、招聘、培訓、績效考核、員工關係等\n2. it - IT 相關：系統使用、帳號管理、密碼重設、軟體安裝、硬體問題、網路連線、VPN、電子郵件等\n3. compliance - 合規相關：法規遵循、公司政策、內部稽核、風險管理、資料保護、保密協議等\n\n請只回覆一個單詞：hr、it 或 compliance\n不要包含任何其他文字或解釋。"

/-- Messages sent by the linebot `triage_agent`. -/
def triage_messages (user_question : String) : List Message :=
  [Message.system triage_system_prompt,
   Message.human ("請分類以下問題：" ++ user_question)]

/-- The linebot `triage_agent`; a raised collaborator exception propagates. -/
def triage_agent (llm : FallibleLLM) (state : SupportState) : Except String SupportUpdate :=
  (llm (triage_messages state.user_question)).map fun response =>
    let category := pyLower (pyStrip response)
    let category := if valid_categories.contains category then category else "it"
    { question_category := some category }

/-- System prompt of the linebot `hr_agent`. -/
def hr_system_prompt : String :=
  "你是企業內部的人資支援專員（HR Agent）。\n你專門負責回答員工關於人資相關的問題。\n\n你的專業領域包括：\n- 薪資與獎金：薪資結構、發薪日期、年終獎金計算方式等\n- 福利制度：保險、健檢、員工優惠、退休金等\n- 假期管理：特休、病假、事假、婚喪假等請假規定\n- 考勤制度：上下班時間、彈性工時、遲到早退規定\n- 招聘流程：內部轉調、升遷管道、職缺資訊\n- 培訓發展：教育訓練、進修補助、職涯發展\n\n請以專業、友善的態度回答問題。\n如果問題超出你的專業範圍，請建議員工聯繫其他部門。\n回答請簡潔扼要，適合在 LINE 訊息中閱讀。"

/-- The linebot `hr_agent`. -/
def hr_agent (llm : FallibleLLM) (state : SupportState) : Except String SupportUpdate :=
  (llm [Message.system hr_system_prompt, Message.human state.user_question]).map fun r =>
    { agent_response := some r }

/-- System prompt of the linebot `it_agent`. -/
def it_system_prompt : String :=
  "你是企業內部的 IT 支援專員（IT Agent）。\n你專門負責回答員工關於 IT 相關的問題。\n\n你的專業領域包括：\n- 帳號管理：帳號申請、密碼重設、權限設定、AD 帳號\n- 系統使用：ERP、CRM、HR系統、內部系統操作說明\n- 軟體支援：Office 365、VPN、防毒軟體、常用軟體安裝\n- 硬體問題：電腦故障、印表機、視訊會議設備\n- 網路連線：Wi-Fi、有線網路、VPN 連線問題\n- 資訊安全：可疑郵件處理、資料備份、安全軟體更新\n\n請以專業、耐心的態度回答問題。\n對於技術問題，請提供簡潔的操作步驟。\n如果需要現場支援，請引導員工提交 IT 服務單。\n回答請簡潔扼要，適合在 LINE 訊息中閱讀。"

/-- The linebot `it_agent`. -/
def it_agent (llm : FallibleLLM) (state : SupportState) : Except String SupportUpdate :=
  (llm [Message.system it_system_prompt, Message.human state.user_question]).map fun r =>
    { agent_response := some r }

/-- System prompt of the linebot `compliance_agent`. -/
def compliance_system_prompt : String :=
  "你是企業內部的合規支援專員（Compliance Agent）。\n你專門負責回答員工關於合規相關的問題。\n\n你的專業領域包括：\n- 法規遵循：相關法律法規、產業規範、監管要求\n- 公司政策：行為準則、道德規範、內部規章制度\n- 資料保護：個資法、GDPR、客戶資料處理規範\n- 保密協議：NDA、競業禁止、智慧財產權保護\n- 利益衝突：申報程序、迴避原則、禮品收受規定\n- 內部稽核：稽核流程、自我評估、改善計畫\n- 風險管理：風險識別、風險評估、風險應對措施\n\n請以專業、謹慎的態度回答問題。\n對於涉及法律風險的問題，請建議員工諮詢法務部門。\n強調合規的重要性，但避免使用過於嚴厲的語氣。\n回答請簡潔扼要，適合在 LINE 訊息中閱讀。"

/-- The linebot `compliance_agent`. -/
def compliance_agent (llm : FallibleLLM) (state : SupportState) : Except String SupportUpdate :=
  (llm [Message.system compliance_system_prompt, Message.human state.user_question]).map fun r =>
    { agent_response := some r }

/-- The linebot `route_to_specialist`, identical to the Lab5 router. -/
def route_to_specialist (state : SupportState) : String :=
  if state.question_category = "hr" then "hr_agent"
  else if state.question_category = "it" then "it_agent"
  else "compliance_agent"

/-- Modelled from the spec: execution of the compiled linebot support
graph — a node's raised exception aborts the whole run (spec section 4.4),
otherwise triage, conditional routing, one specialist, END. -/
def runSupportWorkflow (llm : FallibleLLM) (s0 : SupportState) :
    Except String (SupportState × List String) := do
  let u1 ← triage_agent llm s0
  let s1 := applyUpdate s0 u1
  let next := route_to_specialist s1
  let u ←
    if next = "hr_agent" then hr_agent llm s1
    else if next = "it_agent" then it_agent llm s1
    else compliance_agent llm s1
  return (applyUpdate s1 u, ["triage_agent", next])

/-- Function `process_support_request` of the linebot: build a fresh workflow and a
fresh initial state on every call (no checkpointer is configured), invoke
it, and return the final `agent_response`. -/
def process_support_request (llm : FallibleLLM) (user_question : String) :
    Except String String :=
  let initial_state : SupportState :=
    { user_question := user_question, question_category := "", agent_response := "" }
  (runSupportWorkflow llm initial_state).map fun r => r.1.agent_response

/-- The data of an inbound LINE text-message event that
`handle_text_message` reads: the message text, the sender's user id and
the reply token. -/
structure TextMessageEventData where
  text : String
  user_id : String
  reply_token : String
deriving DecidableEq

/-- The reply request sent through `MessagingApi.reply_message`. -/
structure ReplyMessageRequestData where
  reply_token : String
  messages : List String
deriving DecidableEq

/-- The generic fallback apology sent when `process_support_request`
raises. -/
def fallback_response : String := "抱歉，系統目前發生問題，請稍後再試。"

/-- Handler `handle_text_message`: process the message text through the support
workflow; on any exception substitute the fallback apology; always send
exactly one reply through the event's reply token. -/
def handle_text_message (llm : FallibleLLM) (event : TextMessageEventData) :
    ReplyMessageRequestData :=
  let response :=
    match process_support_request llm event.text with
    | Except.ok r => r
    | Except.error _ => fallback_response
  { reply_token := event.reply_token, messages := [response] }

end Linebot

namespace MCPServer

/-- A record of the simulated product database of
`src/mcpserver/mcp_server.py`. -/
structure Product where
  name : String
  description : String
  price : Nat
  currency : String
  stock_status : String
  stock_quantity : Nat
  category : String
  features : List String
  warranty : String
deriving DecidableEq

/-- The `PRODUCTS_DATABASE`, in dict insertion order. -/
def PRODUCTS_DATABASE : List (String × Product) :=
  [("airpure pro",
    { name := "AirPure Pro 智能空氣清淨機"
      description := "專為現代家庭設計的新一代智能空氣清淨機，配備 HEPA-13 濾網，可捕捉 99.97% 的空氣微粒，包括灰塵、花粉和寵物皮屑。"
      price := 12800
      currency := "TWD"
      stock_status := "有庫存"
      stock_quantity := 156
      category := "家電"
      features := ["HEPA-13 級濾網", "智能空氣品質偵測 (PM2.5, VOC)", "App 遠端控制",
        "超靜音設計 (25dB)", "適用 30 坪空間"]
      warranty := "2年保固" }),
   ("智能手錶",
    { name := "SmartWatch X1 智能手錶"
      description := "全方位健康監測智能手錶，支援心率、血氧、睡眠追蹤，內建 GPS 和防水功能，是您的運動健康好夥伴。"
      price := 8990
      currency := "TWD"
      stock_status := "有庫存"
      stock_quantity := 89
      category := "穿戴裝置"
      features := ["24小時心率監測", "血氧濃度偵測", "睡眠品質分析", "內建 GPS",
        "5ATM 防水", "7天續航力"]
      warranty := "1年保固" }),
   ("無線耳機",
    { name := "SoundPods Ultra 真無線藍牙耳機"
      description := "Hi-Fi 音質真無線藍牙耳機，支援主動降噪功能，配備觸控操作和長效電池，帶來沉浸式聆聽體驗。"
      price := 3990
      currency := "TWD"
      stock_status := "有庫存"
      stock_quantity := 234
      category := "音訊設備"
      features := ["主動降噪 (ANC)", "Hi-Fi 音質", "觸控操作", "單次續航 8 小時",
        "充電盒總續航 32 小時", "IPX5 防水"]
      warranty := "1年保固" }),
   ("筆記型電腦",
    { name := "ProBook 15 輕薄筆電"
      description := "輕薄高效能筆記型電腦，搭載最新處理器和高解析度螢幕，適合專業人士和創作者使用。"
      price := 42900
      currency := "TWD"
      stock_status := "預購中"
      stock_quantity := 0
      category := "電腦"
      features := ["15.6 吋 2K IPS 螢幕", "第 13 代 Intel Core i7", "16GB DDR5 記憶體",
        "512GB NVMe SSD", "指紋辨識", "Thunderbolt 4 連接埠"]
      warranty := "2年保固" })]

/-- Split a digit list (least-significant first) into groups of three, as
Python's `format(n, ",")` thousands grouping does. -/
def chunk3 : List Char → List (List Char)
  | [] => []
  | [a] => [[a]]
  | [a, b] => [[a, b]]
  | a :: b :: c :: rest => [a, b, c] :: chunk3 rest

/-- Python's `f"{n:,}"` thousands-separated decimal rendering. -/
def commaFormat (n : Nat) : String :=
  let ds := (toString n).data.reverse
  String.intercalate "," (((chunk3 ds).map List.reverse).reverse.map String.mk)

/-- The matching loop of `get_product_info`: lowercase and strip the query,
then return the first product whose key, name, or any feature contains it. -/
def findProduct (product_name : String) : Option Product :=
  let search_term := pyStrip (pyLower product_name)
  PRODUCTS_DATABASE.findSome? fun kp =>
    if strContains (pyLower kp.1) search_term
        || strContains (pyLower kp.2.name) search_term
        || kp.2.features.any (fun f => strContains (pyLower f) search_term)
    then some kp.2 else none

/-- The formatted product report of `get_product_info`'s found branch. -/
def formatProductInfo (p : Product) : String :=
  let features_text := String.intercalate "\n" (p.features.map (fun f => "  - " ++ f))
  pyStrip ("\n【產品資訊】\n\n產品名稱：" ++ p.name ++ "\n產品類別：" ++ p.category ++
    "\n\n產品描述：\n" ++ p.description ++
    "\n\n價格：NT$ " ++ commaFormat p.price ++ " " ++ p.currency ++
    "\n\n庫存狀態：" ++ p.stock_status ++ "\n" ++
    (if p.stock_quantity > 0 then "庫存數量：" ++ toString p.stock_quantity ++ " 件" else "") ++
    "\n\n產品特色：\n" ++ features_text ++ "\n\n保固期間：" ++ p.warranty ++ "\n")

/-- Tool `get_product_info`: a query matching no record returns a normal textual
result listing every available product name; a match returns the formatted
report. -/
def get_product_info (product_name : String) : String :=
  match findProduct product_name with
  | none =>
    let available_products := PRODUCTS_DATABASE.map (fun kp => kp.2.name)
    "找不到名為「" ++ product_name ++ "」的產品。\n\n目前可查詢的產品有：\n" ++
      String.intercalate "\n" (available_products.map (fun name => "- " ++ name))
  | some matched_product => formatProductInfo matched_product

/-- A record of the simulated order database. Keys absent from a given
Python dict entry are `none` here; the formatting code below only ever
reads keys that are present for the record's status. -/
structure OrderRec where
  order_id : String
  status : String
  status_code : String
  product : String
  quantity : Nat
  total_amount : Nat
  order_date : String
  shipping_date : Option String := none
  delivery_date : Option String := none
  estimated_delivery : Option String := none
  estimated_shipping : Option String := none
  cancel_date : Option String := none
  cancel_reason : Option String := none
  refund_status : Option String := none
  shipping_address : Option String := none
  tracking_number : Option String := none
deriving DecidableEq

/-- The `ORDERS_DATABASE`, in dict insertion order. -/
def ORDERS_DATABASE : List (String × OrderRec) :=
  [("ORD-2024-001",
    { order_id := "ORD-2024-001", status := "已送達", status_code := "delivered"
      product := "AirPure Pro 智能空氣清淨機", quantity := 1, total_amount := 12800
      order_date := "2024-12-20", shipping_date := some "2024-12-21"
      delivery_date := some "2024-12-23"
      shipping_address := some "台北市信義區松仁路 100 號"
      tracking_number := some "TW123456789" }),
   ("ORD-2024-002",
    { order_id := "ORD-2024-002", status := "運送中", status_code := "shipping"
      product := "SmartWatch X1 智能手錶", quantity := 2, total_amount := 17980
      order_date := "2024-12-27", shipping_date := some "2024-12-28"
      delivery_date := none, estimated_delivery := some "2024-12-30"
      shipping_address := some "新北市板橋區中山路 50 號"
      tracking_number := some "TW987654321" }),
   ("ORD-2024-003",
    { order_id := "ORD-2024-003", status := "處理中", status_code := "processing"
      product := "SoundPods Ultra 真無線藍牙耳機", quantity := 1, total_amount := 3990
      order_date := "2024-12-29", shipping_date := none, delivery_date := none
      estimated_shipping := some "2024-12-30"
      shipping_address := some "台中市西屯區台灣大道 200 號"
      tracking_number := none }),
   ("ORD-2024-004",
    { order_id := "ORD-2024-004", status := "已取消", status_code := "cancelled"
      product := "ProBook 15 輕薄筆電", quantity := 1, total_amount := 42900
      order_date := "2024-12-15", cancel_date := some "2024-12-16"
      cancel_reason := some "客戶要求取消", refund_status := some "已退款" })]

/-- The order lookup of `get_order_status`: uppercase and strip the query,
then an exact dict lookup. -/
def findOrder (order_id : String) : Option OrderRec :=
  let order_id_upper := pyStrip (pyUpper order_id)
  (ORDERS_DATABASE.find? (fun kp => kp.1 = order_id_upper)).map (fun kp => kp.2)

/-- The `status_emoji.get(code, default)` lookup. -/
def statusEmoji (status_code : String) : String :=
  if status_code = "delivered" then "✅"
  else if status_code = "shipping" then "🚚"
  else if status_code = "processing" then "⏳"
  else if status_code = "cancelled" then "❌"
  else "📦"

/-- Render an optional field the way Python's f-string renders it (the
records above never reach the `"None"` default on any taken branch). -/
def optStr (o : Option String) : String := o.getD "None"

/-- The formatted order report of `get_order_status`'s found branch. -/
def formatOrderStatus (order : OrderRec) : String :=
  let emoji := statusEmoji order.status_code
  let base := "\n【訂單狀態查詢】\n\n訂單號碼：" ++ order.order_id ++
    "\n訂單狀態：" ++ emoji ++ " " ++ order.status ++
    "\n\n訂購商品：" ++ order.product ++ "\n數量：" ++ toString order.quantity ++
    " 件\n訂單金額：NT$ " ++ commaFormat order.total_amount ++
    "\n\n訂購日期：" ++ order.order_date ++ "\n"
  let extra :=
    if order.status_code = "delivered" then
      "出貨日期：" ++ optStr order.shipping_date ++ "\n送達日期：" ++ optStr order.delivery_date ++
      "\n物流編號：" ++ optStr order.tracking_number ++ "\n配送地址：" ++ optStr order.shipping_address ++
      "\n\n訂單已順利送達！感謝您的訂購。\n"
    else if order.status_code = "shipping" then
      "出貨日期：" ++ optStr order.shipping_date ++ "\n預計送達：" ++ optStr order.estimated_delivery ++
      "\n物流編號：" ++ optStr order.tracking_number ++ "\n配送地址：" ++ optStr order.shipping_address ++
      "\n\n您的訂單正在運送途中，請留意收件。\n"
    else if order.status_code = "processing" then
      "預計出貨：" ++ optStr order.estimated_shipping ++ "\n配送地址：" ++ optStr order.shipping_address ++
      "\n\n訂單正在處理中，將盡快為您出貨。\n"
    else if order.status_code = "cancelled" then
      "取消日期：" ++ optStr order.cancel_date ++ "\n取消原因：" ++ optStr order.cancel_reason ++
      "\n退款狀態：" ++ optStr order.refund_status ++ "\n"
    else ""
  pyStrip (base ++ extra)

/-- Tool `get_order_status`: an id matching no record returns a normal textual
result naming sample order numbers; a match returns the formatted report. -/
def get_order_status (order_id : String) : String :=
  match findOrder order_id with
  | none =>
    let sample_orders := (ORDERS_DATABASE.map (fun kp => kp.1)).take 3
    "找不到訂單號碼「" ++ order_id ++
      "」。\n\n請確認訂單號碼格式是否正確（例如：ORD-2024-001）。\n\n範例訂單號碼：" ++
      String.intercalate ", " sample_orders
  | some order => formatOrderStatus order

end MCPServer

/-! Shared helper lemmas. -/

/-- Last-writer-wins on a single field commutes when at most one of the two
updates writes the field. -/
theorem getD_none_comm (a b : Option String) (x : String) (h : a = none ∨ b = none) :
    b.getD (a.getD x) = a.getD (b.getD x) := by
  rcases h with h | h <;> simp [h]

/-- Direct witness for substring containment. -/
theorem containsStr_intro (pre pat post : String) : ContainsStr pat (pre ++ pat ++ post) :=
  ⟨pre, post, rfl⟩

/-- The triage step leaves the user question unchanged and stores the
validated category. -/
theorem lab5_triaged_parts (llm : LLM) (q : String) :
    (Lab5.triagedState llm (Lab5.initialSupportState q)).user_question = q ∧
    (Lab5.triagedState llm (Lab5.initialSupportState q)).question_category =
      (if Lab5.valid_categories.contains (pyLower (pyStrip (llm (Lab5.triage_messages q)))) then
        pyLower (pyStrip (llm (Lab5.triage_messages q))) else "it") := by
  constructor <;>
    simp [Lab5.triagedState, Lab5.triage_agent, Lab5.applyUpdate, Lab5.initialSupportState]

/-- Every specialist node writes only `agent_response`. -/
theorem lab5_specialist_update_category (llm : LLM) (s1 : Lab5.SupportState) :
    (Lab5.specialist_update llm s1).question_category = none := by
  unfold Lab5.specialist_update
  split_ifs <;> simp [Lab5.hr_agent, Lab5.it_agent, Lab5.compliance_agent]

/-- The final category of a support run is the category the triage step
stored. -/
theorem lab5_run_category (llm : LLM) (s0 : Lab5.SupportState) :
    (Lab5.runSupportWorkflow llm s0).1.question_category =
      (Lab5.triagedState llm s0).question_category := by
  simp [Lab5.runSupportWorkflow, Lab5.applyUpdate, lab5_specialist_update_category]

/-! Claim theorems. -/

/-- Claim C5: the engine's state merge satisfies
`merge(merge(s,u1),u2) = merge(merge(s,u2),u1)` for partial updates `u1`,
`u2` writing disjoint field sets, and the three translator nodes do write
pairwise disjoint field sets, so their updates may be merged in any order
with identical results. -/
theorem c5_disjoint_merge_commutes :
    (∀ (s : Lab6.TranslationState) (u1 u2 : Lab6.TranslationUpdate),
        Lab6.DisjointUpdates u1 u2 →
        Lab6.applyUpdate (Lab6.applyUpdate s u1) u2 =
          Lab6.applyUpdate (Lab6.applyUpdate s u2) u1) ∧
    (∀ (llm : LLM) (s : Lab6.TranslationState),
        Lab6.DisjointUpdates (Lab6.chinese_translator_agent llm s)
          (Lab6.japanese_translator_agent llm s) ∧
        Lab6.DisjointUpdates (Lab6.chinese_translator_agent llm s)
          (Lab6.french_translator_agent llm s) ∧
        Lab6.DisjointUpdates (Lab6.japanese_translator_agent llm s)
          (Lab6.french_translator_agent llm s)) := by
  constructor
  · intro s u1 u2 h
    obtain ⟨h1, h2, h3, h4, h5⟩ := h
    simp only [Lab6.applyUpdate, Lab6.TranslationState.mk.injEq]
    exact ⟨getD_none_comm _ _ _ h1, getD_none_comm _ _ _ h2, getD_none_comm _ _ _ h3,
      getD_none_comm _ _ _ h4, getD_none_comm _ _ _ h5⟩
  · intro llm s
    refine ⟨?_, ?_, ?_⟩ <;>
      simp [Lab6.DisjointUpdates, Lab6.chinese_translator_agent,
        Lab6.japanese_translator_agent, Lab6.french_translator_agent]

/-- Witness for C5 at a concrete state and concrete disjoint updates. -/
theorem c5_disjoint_merge_commutes_witness :
    Lab6.applyUpdate
        (Lab6.applyUpdate (Lab6.initialTranslationState "Hello")
          { chinese_translation := some "你好" })
        { japanese_translation := some "こんにちは" } =
      Lab6.applyUpdate
        (Lab6.applyUpdate (Lab6.initialTranslationState "Hello")
          { japanese_translation := some "こんにちは" })
        { chinese_translation := some "你好" } :=
  c5_disjoint_merge_commutes.1 (Lab6.initialTranslationState "Hello")
    { chinese_translation := some "你好" } { japanese_translation := some "こんにちは" }
    (by simp [Lab6.DisjointUpdates])

/-- Claim C6: every state field not mentioned in a node's partial update is
unchanged by the merge, and in particular merging `agent1_text_review`'s
update (which writes only `text_review`) leaves `contract_content`,
`legal_review` and `revision_suggestions` unchanged. -/
theorem c6_unmentioned_fields_unchanged :
    (∀ (s : Lab4.ContractReviewState) (u : Lab4.ContractReviewUpdate),
        (u.contract_content = none →
          (Lab4.applyUpdate s u).contract_content = s.contract_content) ∧
        (u.text_review = none → (Lab4.applyUpdate s u).text_review = s.text_review) ∧
        (u.legal_review = none → (Lab4.applyUpdate s u).legal_review = s.legal_review) ∧
        (u.revision_suggestions = none →
          (Lab4.applyUpdate s u).revision_suggestions = s.revision_suggestions)) ∧
    (∀ (llm : LLM) (s : Lab4.ContractReviewState),
        (Lab4.applyUpdate s (Lab4.agent1_text_review llm s)).contract_content =
          s.contract_content ∧
        (Lab4.applyUpdate s (Lab4.agent1_text_review llm s)).legal_review = s.legal_review ∧
        (Lab4.applyUpdate s (Lab4.agent1_text_review llm s)).revision_suggestions =
          s.revision_suggestions) := by
  constructor
  · intro s u
    refine ⟨fun h => ?_, fun h => ?_, fun h => ?_, fun h => ?_⟩ <;> simp [Lab4.applyUpdate, h]
  · intro llm s
    refine ⟨?_, ?_, ?_⟩ <;> simp [Lab4.applyUpdate, Lab4.agent1_text_review]

/-- Witness for C6: a concrete update writing only `text_review` leaves
`contract_content` of a concrete state unchanged. -/
theorem c6_unmentioned_fields_unchanged_witness :
    (Lab4.applyUpdate (Lab4.initialContractState "本合約內容")
        { text_review := some "文字清晰" }).contract_content =
      (Lab4.initialContractState "本合約內容").contract_content :=
  (c6_unmentioned_fields_unchanged.1 (Lab4.initialContractState "本合約內容")
    { text_review := some "文字清晰" }).1 rfl

/-- Claim C2: the support workflow's final `question_category` is always one
of the three declared categories, and whenever the stripped, lowercased
triage answer is not one of them the run falls back to the declared default
(the IT agent) and completes normally with category `"it"`. -/
theorem c2_unrecognized_category_falls_back (llm : LLM) (q : String) :
    (Lab5.runSupportWorkflow llm (Lab5.initialSupportState q)).1.question_category ∈
      Lab5.valid_categories ∧
    (Lab5.valid_categories.contains (pyLower (pyStrip (llm (Lab5.triage_messages q)))) = false →
      (Lab5.runSupportWorkflow llm (Lab5.initialSupportState q)).2 =
        ["triage_agent", "it_agent"] ∧
      (Lab5.runSupportWorkflow llm (Lab5.initialSupportState q)).1.question_category = "it" ∧
      (Lab5.runSupportWorkflow llm (Lab5.initialSupportState q)).1.agent_response =
        llm (Lab5.it_messages q)) := by
  constructor
  · rw [lab5_run_category, (lab5_triaged_parts llm q).2]
    by_cases hc :
        Lab5.valid_categories.contains (pyLower (pyStrip (llm (Lab5.triage_messages q)))) = true
    · rw [if_pos hc]
      simpa using hc
    · rw [if_neg hc]
      decide
  · intro hfalse
    have hcat : (Lab5.triagedState llm (Lab5.initialSupportState q)).question_category = "it" := by
      rw [(lab5_triaged_parts llm q).2, if_neg]
      simpa using hfalse
    have hroute :
        Lab5.route_to_specialist (Lab5.triagedState llm (Lab5.initialSupportState q)) =
          "it_agent" := by
      simp [Lab5.route_to_specialist, hcat]
    have hupd :
        Lab5.specialist_update llm (Lab5.triagedState llm (Lab5.initialSupportState q)) =
          Lab5.it_agent llm (Lab5.triagedState llm (Lab5.initialSupportState q)) := by
      simp [Lab5.specialist_update, hroute]
    refine ⟨?_, ?_, ?_⟩
    · simp [Lab5.runSupportWorkflow, hroute]
    · rw [lab5_run_category]
      exact hcat
    · simp [Lab5.runSupportWorkflow, hupd, Lab5.it_agent, Lab5.applyUpdate,
        (lab5_triaged_parts llm q).1]

/-- Witness for C2 at a triage collaborator that answers outside the
declared category set. -/
theorem c2_unrecognized_category_falls_back_witness :
    (Lab5.runSupportWorkflow (fun _ => " Unknown ") (Lab5.initialSupportState "請問報帳")).2 =
        ["triage_agent", "it_agent"] ∧
    (Lab5.runSupportWorkflow (fun _ => " Unknown ")
        (Lab5.initialSupportState "請問報帳")).1.question_category = "it" :=
  ⟨((c2_unrecognized_category_falls_back (fun _ => " Unknown ") "請問報帳").2 (by decide)).1,
   ((c2_unrecognized_category_falls_back (fun _ => " Unknown ") "請問報帳").2 (by decide)).2.1⟩

/-- Claim C4: when the stripped, lowercased triage answer is `"hr"`, the
executed path is triage_agent → hr_agent → END and the IT and compliance
nodes never execute; the final category is `"hr"` and the response is the
HR agent's answer. -/
theorem c4_hr_classification_routes_to_hr (llm : LLM) (q : String)
    (h : pyLower (pyStrip (llm (Lab5.triage_messages q))) = "hr") :
    (Lab5.runSupportWorkflow llm (Lab5.initialSupportState q)).2 =
      ["triage_agent", "hr_agent"] ∧
    "it_agent" ∉ (Lab5.runSupportWorkflow llm (Lab5.initialSupportState q)).2 ∧
    "compliance_agent" ∉ (Lab5.runSupportWorkflow llm (Lab5.initialSupportState q)).2 ∧
    (Lab5.runSupportWorkflow llm (Lab5.initialSupportState q)).1.question_category = "hr" ∧
    (Lab5.runSupportWorkflow llm (Lab5.initialSupportState q)).1.agent_response =
      llm (Lab5.hr_messages q) := by
  have hcat : (Lab5.triagedState llm (Lab5.initialSupportState q)).question_category = "hr" := by
    rw [(lab5_triaged_parts llm q).2, h]
    decide
  have hroute :
      Lab5.route_to_specialist (Lab5.triagedState llm (Lab5.initialSupportState q)) =
        "hr_agent" := by
    simp [Lab5.route_to_specialist, hcat]
  have hupd :
      Lab5.specialist_update llm (Lab5.triagedState llm (Lab5.initialSupportState q)) =
        Lab5.hr_agent llm (Lab5.triagedState llm (Lab5.initialSupportState q)) := by
    simp [Lab5.specialist_update, hroute]
  refine ⟨?_, ?_, ?_, ?_, ?_⟩
  · simp [Lab5.runSupportWorkflow, hroute]
  · simp [Lab5.runSupportWorkflow, hroute]
  · simp [Lab5.runSupportWorkflow, hroute]
  · rw [lab5_run_category]
    exact hcat
  · simp [Lab5.runSupportWorkflow, hupd, Lab5.hr_agent, Lab5.applyUpdate,
      (lab5_triaged_parts llm q).1]

/-- Witness for C4 at a triage collaborator that answers `"hr"` (modulo
whitespace and case, as the source normalizes). -/
theorem c4_hr_classification_routes_to_hr_witness :
    (Lab5.runSupportWorkflow (fun _ => " HR\n") (Lab5.initialSupportState "特休假怎麼計算？")).2 =
        ["triage_agent", "hr_agent"] ∧
    (Lab5.runSupportWorkflow (fun _ => " HR\n")
        (Lab5.initialSupportState "特休假怎麼計算？")).1.question_category = "hr" :=
  ⟨(c4_hr_classification_routes_to_hr (fun _ => " HR\n") "特休假怎麼計算？" (by decide)).1,
   (c4_hr_classification_routes_to_hr (fun _ => " HR\n") "特休假怎麼計算？" (by decide)).2.2.2.1⟩

/-- Counterexample to C8 as stated: with a collaborator that returns an
empty completion (no exception raised), the reply sent is the empty
string, so `handle_text_message` does not always reply with non-empty
text. -/
theorem c8_empty_completion_counterexample :
    (Linebot.handle_text_message (fun _ => Except.ok "")
        { text := "請問訂單狀態", user_id := "U0001", reply_token := "rtok" }).messages =
      [""] := by
  decide

/-- Claim C8 (amended): `handle_text_message` always sends exactly one
reply through the event's reply token; when `process_support_request`
raises, the reply text is the generic fallback apology, which is
non-empty; on success the reply text is whatever the workflow returned
(not checked for non-emptiness). -/
theorem c8_fallback_reply_on_failure (llm : Linebot.FallibleLLM)
    (event : Linebot.TextMessageEventData) :
    (Linebot.handle_text_message llm event).reply_token = event.reply_token ∧
    (Linebot.handle_text_message llm event).messages.length = 1 ∧
    (∀ e, Linebot.process_support_request llm event.text = Except.error e →
        (Linebot.handle_text_message llm event).messages = [Linebot.fallback_response]) ∧
    (∀ r, Linebot.process_support_request llm event.text = Except.ok r →
        (Linebot.handle_text_message llm event).messages = [r]) ∧
    Linebot.fallback_response ≠ "" := by
  cases hp : Linebot.process_support_request llm event.text with
  | ok r =>
    refine ⟨rfl, ?_, ?_, ?_, by decide⟩
    · simp [Linebot.handle_text_message, hp]
    · intro e he
      exact absurd he (by simp)
    · intro r' hr
      obtain rfl : r = r' := by simpa using hr
      simp [Linebot.handle_text_message, hp]
  | error e =>
    refine ⟨rfl, ?_, ?_, ?_, by decide⟩
    · simp [Linebot.handle_text_message, hp]
    · intro e' _
      simp [Linebot.handle_text_message, hp]
    · intro r hr
      exact absurd hr (by simp)

/-- Witness for C8 (amended) at a collaborator whose call raises. -/
theorem c8_fallback_reply_on_failure_witness :
    (Linebot.handle_text_message (fun _ => Except.error "network down")
        { text := "特休怎麼計算", user_id := "U0002", reply_token := "rtok2" }).messages =
      [Linebot.fallback_response] :=
  ((c8_fallback_reply_on_failure (fun _ => Except.error "network down")
      { text := "特休怎麼計算", user_id := "U0002", reply_token := "rtok2" }).2.2.1)
    "network down" rfl

/-- Claim C10: the webhook integration is stateless — the reply text
computed by `handle_text_message` depends only on the message text (given
the same collaborator), not on the sender's user id, the reply token, or
any earlier message: `process_support_request` is a pure function of the
collaborator and the question, building a fresh workflow and fresh initial
state and consulting no checkpoint store. -/
theorem c10_reply_depends_only_on_text (llm : Linebot.FallibleLLM)
    (e1 e2 : Linebot.TextMessageEventData) (h : e1.text = e2.text) :
    (Linebot.handle_text_message llm e1).messages =
      (Linebot.handle_text_message llm e2).messages := by
  simp [Linebot.handle_text_message, h]

/-- Witness for C10: two events with the same text but different senders
and reply tokens get the same reply text. -/
theorem c10_reply_depends_only_on_text_witness :
    (Linebot.handle_text_message (fun _ => Except.ok "答覆")
        { text := "特休怎麼計算", user_id := "U-alice", reply_token := "tok1" }).messages =
      (Linebot.handle_text_message (fun _ => Except.ok "答覆")
        { text := "特休怎麼計算", user_id := "U-bob", reply_token := "tok2" }).messages :=
  c10_reply_depends_only_on_text (fun _ => Except.ok "答覆")
    { text := "特休怎麼計算", user_id := "U-alice", reply_token := "tok1" }
    { text := "特休怎麼計算", user_id := "U-bob", reply_token := "tok2" } rfl

/-- Claim C7: two `stream_chat` calls on the same thread id make the first
invocation's checkpointed state visible to the second — after the first
call the saved history already holds turn one, and after the second call
the saved history holds the user and assistant messages of both turns in
order (the second reply is generated from a conversation that includes
turn one) — while a different, unused thread id still reads an empty
history. -/
theorem c7_same_thread_sees_prior_state (llm : Lab3.AgentLLM)
    (m1 m2 tid tid2 f1 f2 : String)
    (htid : tid ≠ "") (htid2 : tid2 ≠ "") (hne : tid2 ≠ tid) :
    Lab3.get_conversation_history (Lab3.stream_chat llm Lab3.newAgent m1 (some tid) f1)
        (some tid) =
      [Lab3.ChatMessage.user m1,
       Lab3.ChatMessage.ai (llm Lab3.marketing_system_prompt [Lab3.ChatMessage.user m1])] ∧
    Lab3.get_conversation_history
        (Lab3.stream_chat llm (Lab3.stream_chat llm Lab3.newAgent m1 (some tid) f1) m2
          (some tid) f2)
        (some tid) =
      [Lab3.ChatMessage.user m1,
       Lab3.ChatMessage.ai (llm Lab3.marketing_system_prompt [Lab3.ChatMessage.user m1]),
       Lab3.ChatMessage.user m2,
       Lab3.ChatMessage.ai (llm Lab3.marketing_system_prompt
         [Lab3.ChatMessage.user m1,
          Lab3.ChatMessage.ai (llm Lab3.marketing_system_prompt [Lab3.ChatMessage.user m1]),
          Lab3.ChatMessage.user m2])] ∧
    Lab3.get_conversation_history
        (Lab3.stream_chat llm (Lab3.stream_chat llm Lab3.newAgent m1 (some tid) f1) m2
          (some tid) f2)
        (some tid2) = [] := by
  refine ⟨?_, ?_, ?_⟩ <;>
    simp [Lab3.get_conversation_history, Lab3.stream_chat, Lab3.newAgent, htid, htid2, hne]

/-- Witness for C7 at concrete thread ids and a concrete collaborator. -/
theorem c7_same_thread_sees_prior_state_witness :
    Lab3.get_conversation_history
        (Lab3.stream_chat (fun _ _ => "好的") (Lab3.stream_chat (fun _ _ => "好的")
          Lab3.newAgent "寫文案" (some "thread-1") "u1") "改標題" (some "thread-1") "u2")
        (some "thread-1") =
      [Lab3.ChatMessage.user "寫文案", Lab3.ChatMessage.ai "好的",
       Lab3.ChatMessage.user "改標題", Lab3.ChatMessage.ai "好的"] ∧
    Lab3.get_conversation_history
        (Lab3.stream_chat (fun _ _ => "好的") (Lab3.stream_chat (fun _ _ => "好的")
          Lab3.newAgent "寫文案" (some "thread-1") "u1") "改標題" (some "thread-1") "u2")
        (some "thread-2") = [] :=
  ⟨(c7_same_thread_sees_prior_state (fun _ _ => "好的") "寫文案" "改標題" "thread-1" "thread-2"
      "u1" "u2" (by decide) (by decide) (by decide)).2.1,
   (c7_same_thread_sees_prior_state (fun _ _ => "好的") "寫文案" "改標題" "thread-1" "thread-2"
      "u1" "u2" (by decide) (by decide) (by decide)).2.2⟩

/-- Claim C3: along the sequential contract-review chain each node's update
is merged before the next node runs — agent2's collaborator input contains
agent1's `text_review`, agent3's input contains both `text_review` and
`legal_review` — and the final state carries all three contributions
(populated whenever the three collaborator answers are non-empty). -/
theorem c3_chain_full_visibility (llm : LLM) (contract : String)
    (h1 : llm (Lab4.agent1_messages (Lab4.initialContractState contract)) ≠ "")
    (h2 : llm (Lab4.agent2_messages
        (Lab4.stateAfterAgent1 llm (Lab4.initialContractState contract))) ≠ "")
    (h3 : llm (Lab4.agent3_messages
        (Lab4.stateAfterAgent2 llm (Lab4.initialContractState contract))) ≠ "") :
    (Lab4.stateAfterAgent1 llm (Lab4.initialContractState contract)).text_review =
      llm (Lab4.agent1_messages (Lab4.initialContractState contract)) ∧
    ContainsStr (Lab4.stateAfterAgent1 llm (Lab4.initialContractState contract)).text_review
      (Lab4.agent2_user_content
        (Lab4.stateAfterAgent1 llm (Lab4.initialContractState contract))) ∧
    ContainsStr (Lab4.stateAfterAgent2 llm (Lab4.initialContractState contract)).text_review
      (Lab4.agent3_user_content
        (Lab4.stateAfterAgent2 llm (Lab4.initialContractState contract))) ∧
    ContainsStr (Lab4.stateAfterAgent2 llm (Lab4.initialContractState contract)).legal_review
      (Lab4.agent3_user_content
        (Lab4.stateAfterAgent2 llm (Lab4.initialContractState contract))) ∧
    (Lab4.runContractReviewWorkflow llm (Lab4.initialContractState contract)).contract_content =
      contract ∧
    (Lab4.runContractReviewWorkflow llm (Lab4.initialContractState contract)).text_review =
      llm (Lab4.agent1_messages (Lab4.initialContractState contract)) ∧
    (Lab4.runContractReviewWorkflow llm (Lab4.initialContractState contract)).legal_review =
      llm (Lab4.agent2_messages
        (Lab4.stateAfterAgent1 llm (Lab4.initialContractState contract))) ∧
    (Lab4.runContractReviewWorkflow llm
        (Lab4.initialContractState contract)).revision_suggestions =
      llm (Lab4.agent3_messages
        (Lab4.stateAfterAgent2 llm (Lab4.initialContractState contract))) ∧
    (Lab4.runContractReviewWorkflow llm (Lab4.initialContractState contract)).text_review ≠ "" ∧
    (Lab4.runContractReviewWorkflow llm (Lab4.initialContractState contract)).legal_review ≠ "" ∧
    (Lab4.runContractReviewWorkflow llm
        (Lab4.initialContractState contract)).revision_suggestions ≠ "" := by
  refine ⟨?_, ?_, ?_, ?_, ?_, ?_, ?_, ?_, ?_, ?_, ?_⟩
  · simp [Lab4.stateAfterAgent1, Lab4.applyUpdate, Lab4.agent1_text_review]
  · exact ⟨"請評估以下合約的法律風險：\n\n【合約內容】\n" ++
      (Lab4.stateAfterAgent1 llm (Lab4.initialContractState contract)).contract_content ++
      "\n\n【文字審查意見（參考）】\n", "\n", rfl⟩
  · refine ⟨"請根據以下審查結果，提出合約修正建議：\n\n【原始合約內容】\n" ++
      (Lab4.stateAfterAgent2 llm (Lab4.initialContractState contract)).contract_content ++
      "\n\n【文字審查結果】\n",
      "\n\n【法律風險評估結果】\n" ++
        (Lab4.stateAfterAgent2 llm (Lab4.initialContractState contract)).legal_review ++ "\n",
      ?_⟩
    simp only [Lab4.agent3_user_content, String.append_assoc]
  · exact ⟨"請根據以下審查結果，提出合約修正建議：\n\n【原始合約內容】\n" ++
      (Lab4.stateAfterAgent2 llm (Lab4.initialContractState contract)).contract_content ++
      "\n\n【文字審查結果】\n" ++
      (Lab4.stateAfterAgent2 llm (Lab4.initialContractState contract)).text_review ++
      "\n\n【法律風險評估結果】\n", "\n", rfl⟩
  · simp [Lab4.runContractReviewWorkflow, Lab4.stateAfterAgent2, Lab4.stateAfterAgent1,
      Lab4.applyUpdate, Lab4.agent1_text_review, Lab4.agent2_legal_review,
      Lab4.agent3_revision_suggestions, Lab4.initialContractState]
  · simp [Lab4.runContractReviewWorkflow, Lab4.stateAfterAgent2, Lab4.stateAfterAgent1,
      Lab4.applyUpdate, Lab4.agent1_text_review, Lab4.agent2_legal_review,
      Lab4.agent3_revision_suggestions]
  · simp [Lab4.runContractReviewWorkflow, Lab4.stateAfterAgent2, Lab4.stateAfterAgent1,
      Lab4.applyUpdate, Lab4.agent1_text_review, Lab4.agent2_legal_review,
      Lab4.agent3_revision_suggestions]
  · simp [Lab4.runContractReviewWorkflow, Lab4.stateAfterAgent2, Lab4.stateAfterAgent1,
      Lab4.applyUpdate, Lab4.agent1_text_review, Lab4.agent2_legal_review,
      Lab4.agent3_revision_suggestions]
  · simpa [Lab4.runContractReviewWorkflow, Lab4.stateAfterAgent2, Lab4.stateAfterAgent1,
      Lab4.applyUpdate, Lab4.agent1_text_review, Lab4.agent2_legal_review,
      Lab4.agent3_revision_suggestions] using h1
  · simpa [Lab4.runContractReviewWorkflow, Lab4.stateAfterAgent2, Lab4.stateAfterAgent1,
      Lab4.applyUpdate, Lab4.agent1_text_review, Lab4.agent2_legal_review,
      Lab4.agent3_revision_suggestions] using h2
  · simpa [Lab4.runContractReviewWorkflow, Lab4.stateAfterAgent2, Lab4.stateAfterAgent1,
      Lab4.applyUpdate, Lab4.agent1_text_review, Lab4.agent2_legal_review,
      Lab4.agent3_revision_suggestions] using h3

/-- Witness for C3 at a concrete contract and collaborator. -/
theorem c3_chain_full_visibility_witness :
    (Lab4.runContractReviewWorkflow (fun _ => "審查意見")
        (Lab4.initialContractState "乙方應無條件配合。")).text_review = "審查意見" ∧
    (Lab4.runContractReviewWorkflow (fun _ => "審查意見")
        (Lab4.initialContractState "乙方應無條件配合。")).revision_suggestions ≠ "" :=
  ⟨(c3_chain_full_visibility (fun _ => "審查意見") "乙方應無條件配合。"
      (by decide) (by decide) (by decide)).2.2.2.2.2.1,
   (c3_chain_full_visibility (fun _ => "審查意見") "乙方應無條件配合。"
      (by decide) (by decide) (by decide)).2.2.2.2.2.2.2.2.2.2⟩

/-- Claim C9: on an input naming no matching record the lookup tools return
a normal textual result instead of raising — `get_product_info` returns a
string listing the names of all four available products, and
`get_order_status` returns a string listing the three sample order
numbers. -/
theorem c9_lookup_miss_returns_listing :
    (∀ q : String, MCPServer.findProduct q = none →
        MCPServer.get_product_info q =
          "找不到名為「" ++ q ++ "」的產品。\n\n目前可查詢的產品有：\n" ++
            "- AirPure Pro 智能空氣清淨機\n- SmartWatch X1 智能手錶\n- SoundPods Ultra 真無線藍牙耳機\n- ProBook 15 輕薄筆電" ∧
        ContainsStr "AirPure Pro 智能空氣清淨機" (MCPServer.get_product_info q) ∧
        ContainsStr "SmartWatch X1 智能手錶" (MCPServer.get_product_info q) ∧
        ContainsStr "SoundPods Ultra 真無線藍牙耳機" (MCPServer.get_product_info q) ∧
        ContainsStr "ProBook 15 輕薄筆電" (MCPServer.get_product_info q)) ∧
    (∀ oid : String, MCPServer.findOrder oid = none →
        MCPServer.get_order_status oid =
          "找不到訂單號碼「" ++ oid ++
            "」。\n\n請確認訂單號碼格式是否正確（例如：ORD-2024-001）。\n\n範例訂單號碼：" ++
            "ORD-2024-001, ORD-2024-002, ORD-2024-003" ∧
        ContainsStr "ORD-2024-001" (MCPServer.get_order_status oid) ∧
        ContainsStr "ORD-2024-002" (MCPServer.get_order_status oid) ∧
        ContainsStr "ORD-2024-003" (MCPServer.get_order_status oid)) := by
  constructor
  · intro q h
    have hmsg : MCPServer.get_product_info q =
        "找不到名為「" ++ q ++ "」的產品。\n\n目前可查詢的產品有：\n" ++
          "- AirPure Pro 智能空氣清淨機\n- SmartWatch X1 智能手錶\n- SoundPods Ultra 真無線藍牙耳機\n- ProBook 15 輕薄筆電" := by
      simp only [MCPServer.get_product_info, h]
      rfl
    refine ⟨hmsg, ?_, ?_, ?_, ?_⟩ <;> rw [hmsg]
    · refine ⟨"找不到名為「" ++ q ++ "」的產品。\n\n目前可查詢的產品有：\n- ",
        "\n- SmartWatch X1 智能手錶\n- SoundPods Ultra 真無線藍牙耳機\n- ProBook 15 輕薄筆電", ?_⟩
      simp only [String.append_assoc]
      rfl
    · refine ⟨"找不到名為「" ++ q ++
        "」的產品。\n\n目前可查詢的產品有：\n- AirPure Pro 智能空氣清淨機\n- ",
        "\n- SoundPods Ultra 真無線藍牙耳機\n- ProBook 15 輕薄筆電", ?_⟩
      simp only [String.append_assoc]
      rfl
    · refine ⟨"找不到名為「" ++ q ++
        "」的產品。\n\n目前可查詢的產品有：\n- AirPure Pro 智能空氣清淨機\n- SmartWatch X1 智能手錶\n- ",
        "\n- ProBook 15 輕薄筆電", ?_⟩
      simp only [String.append_assoc]
      rfl
    · refine ⟨"找不到名為「" ++ q ++
        "」的產品。\n\n目前可查詢的產品有：\n- AirPure Pro 智能空氣清淨機\n- SmartWatch X1 智能手錶\n- SoundPods Ultra 真無線藍牙耳機\n- ",
        "", ?_⟩
      simp only [String.append_assoc]
      rfl
  · intro oid h
    have hmsg : MCPServer.get_order_status oid =
        "找不到訂單號碼「" ++ oid ++
          "」。\n\n請確認訂單號碼格式是否正確（例如：ORD-2024-001）。\n\n範例訂單號碼：" ++
          "ORD-2024-001, ORD-2024-002, ORD-2024-003" := by
      simp only [MCPServer.get_order_status, h]
      rfl
    refine ⟨hmsg, ?_, ?_, ?_⟩ <;> rw [hmsg]
    · refine ⟨"找不到訂單號碼「" ++ oid ++
        "」。\n\n請確認訂單號碼格式是否正確（例如：ORD-2024-001）。\n\n範例訂單號碼：",
        ", ORD-2024-002, ORD-2024-003", ?_⟩
      simp only [String.append_assoc]
      rfl
    · refine ⟨"找不到訂單號碼「" ++ oid ++
        "」。\n\n請確認訂單號碼格式是否正確（例如：ORD-2024-001）。\n\n範例訂單號碼：ORD-2024-001, ",
        ", ORD-2024-003", ?_⟩
      simp only [String.append_assoc]
      rfl
    · refine ⟨"找不到訂單號碼「" ++ oid ++
        "」。\n\n請確認訂單號碼格式是否正確（例如：ORD-2024-001）。\n\n範例訂單號碼：ORD-2024-001, ORD-2024-002, ",
        "", ?_⟩
      simp only [String.append_assoc]
      rfl

/-- Witness for C9 at a product query and an order id matching nothing. -/
theorem c9_lookup_miss_returns_listing_witness :
    MCPServer.findProduct "加濕器" = none ∧
    ContainsStr "AirPure Pro 智能空氣清淨機" (MCPServer.get_product_info "加濕器") ∧
    MCPServer.findOrder "ord-9999-123" = none ∧
    ContainsStr "ORD-2024-003" (MCPServer.get_order_status "ord-9999-123") :=
  ⟨by decide,
   (c9_lookup_miss_returns_listing.1 "加濕器" (by decide)).2.1,
   by decide,
   (c9_lookup_miss_returns_listing.2 "ord-9999-123" (by decide)).2.2.2⟩

/-- Merging the branch updates processes the completion order head-first. -/
theorem lab6_mergeBranches_cons (llm : LLM) (s0 : Lab6.TranslationState)
    (b : Lab6.BranchNode) (rest : List Lab6.BranchNode) (s : Lab6.TranslationState) :
    Lab6.mergeBranches llm s0 (b :: rest) s =
      Lab6.mergeBranches llm s0 rest (Lab6.applyUpdate s (Lab6.branchAgent b llm s0)) := rfl

/-- No branch update touches `source_content`. -/
theorem lab6_merge_source (llm : LLM) (s0 : Lab6.TranslationState) :
    ∀ (order : List Lab6.BranchNode) (s : Lab6.TranslationState),
      (Lab6.mergeBranches llm s0 order s).source_content = s.source_content := by
  intro order
  induction order with
  | nil => intro s; rfl
  | cons b rest ih =>
    intro s
    rw [lab6_mergeBranches_cons, ih]
    cases b <;>
      simp [Lab6.applyUpdate, Lab6.branchAgent, Lab6.chinese_translator_agent,
        Lab6.japanese_translator_agent, Lab6.french_translator_agent]

/-- No branch update touches `aggregated_result`. -/
theorem lab6_merge_aggregated (llm : LLM) (s0 : Lab6.TranslationState) :
    ∀ (order : List Lab6.BranchNode) (s : Lab6.TranslationState),
      (Lab6.mergeBranches llm s0 order s).aggregated_result = s.aggregated_result := by
  intro order
  induction order with
  | nil => intro s; rfl
  | cons b rest ih =>
    intro s
    rw [lab6_mergeBranches_cons, ih]
    cases b <;>
      simp [Lab6.applyUpdate, Lab6.branchAgent, Lab6.chinese_translator_agent,
        Lab6.japanese_translator_agent, Lab6.french_translator_agent]

/-- Only the Chinese branch writes `chinese_translation`, and it writes the
translation computed from the pre-fan-out snapshot. -/
theorem lab6_merge_chinese (llm : LLM) (s0 : Lab6.TranslationState) :
    ∀ (order : List Lab6.BranchNode) (s : Lab6.TranslationState),
      (Lab6.mergeBranches llm s0 order s).chinese_translation =
        if Lab6.BranchNode.chinese_translator ∈ order then
          Lab6.chinese_text llm s0 else s.chinese_translation := by
  intro order
  induction order with
  | nil => intro s; simp [Lab6.mergeBranches]
  | cons b rest ih =>
    intro s
    rw [lab6_mergeBranches_cons, ih]
    cases b <;>
      by_cases hm : Lab6.BranchNode.chinese_translator ∈ rest <;>
        simp [hm, Lab6.applyUpdate, Lab6.branchAgent, Lab6.chinese_translator_agent,
          Lab6.japanese_translator_agent, Lab6.french_translator_agent]

/-- Only the Japanese branch writes `japanese_translation`. -/
theorem lab6_merge_japanese (llm : LLM) (s0 : Lab6.TranslationState) :
    ∀ (order : List Lab6.BranchNode) (s : Lab6.TranslationState),
      (Lab6.mergeBranches llm s0 order s).japanese_translation =
        if Lab6.BranchNode.japanese_translator ∈ order then
          Lab6.japanese_text llm s0 else s.japanese_translation := by
  intro order
  induction order with
  | nil => intro s; simp [Lab6.mergeBranches]
  | cons b rest ih =>
    intro s
    rw [lab6_mergeBranches_cons, ih]
    cases b <;>
      by_cases hm : Lab6.BranchNode.japanese_translator ∈ rest <;>
        simp [hm, Lab6.applyUpdate, Lab6.branchAgent, Lab6.chinese_translator_agent,
          Lab6.japanese_translator_agent, Lab6.french_translator_agent]

/-- Only the French branch writes `french_translation`. -/
theorem lab6_merge_french (llm : LLM) (s0 : Lab6.TranslationState) :
    ∀ (order : List Lab6.BranchNode) (s : Lab6.TranslationState),
      (Lab6.mergeBranches llm s0 order s).french_translation =
        if Lab6.BranchNode.french_translator ∈ order then
          Lab6.french_text llm s0 else s.french_translation := by
  intro order
  induction order with
  | nil => intro s; simp [Lab6.mergeBranches]
  | cons b rest ih =>
    intro s
    rw [lab6_mergeBranches_cons, ih]
    cases b <;>
      by_cases hm : Lab6.BranchNode.french_translator ∈ rest <;>
        simp [hm, Lab6.applyUpdate, Lab6.branchAgent, Lab6.chinese_translator_agent,
          Lab6.japanese_translator_agent, Lab6.french_translator_agent]

/-- Whatever order a permutation of the three branches completes in, the
merged pre-join state is the same: the snapshot with all three translation
fields filled in. -/
theorem lab6_merged_eq (llm : LLM) (s0 : Lab6.TranslationState)
    (order : List Lab6.BranchNode) (h : order.Perm Lab6.allBranches) :
    Lab6.mergeBranches llm s0 order s0 =
      { source_content := s0.source_content
        chinese_translation := Lab6.chinese_text llm s0
        japanese_translation := Lab6.japanese_text llm s0
        french_translation := Lab6.french_text llm s0
        aggregated_result := s0.aggregated_result } := by
  have hc : Lab6.BranchNode.chinese_translator ∈ order := h.mem_iff.mpr (by decide)
  have hj : Lab6.BranchNode.japanese_translator ∈ order := h.mem_iff.mpr (by decide)
  have hf : Lab6.BranchNode.french_translator ∈ order := h.mem_iff.mpr (by decide)
  calc Lab6.mergeBranches llm s0 order s0 =
      ⟨(Lab6.mergeBranches llm s0 order s0).source_content,
       (Lab6.mergeBranches llm s0 order s0).chinese_translation,
       (Lab6.mergeBranches llm s0 order s0).japanese_translation,
       (Lab6.mergeBranches llm s0 order s0).french_translation,
       (Lab6.mergeBranches llm s0 order s0).aggregated_result⟩ := rfl
    _ = _ := by
      rw [lab6_merge_source, lab6_merge_aggregated, lab6_merge_chinese, lab6_merge_japanese,
        lab6_merge_french]
      simp [hc, hj, hf]

/-- Claim C1: whatever order the three translator branches complete in, the
`aggregator` join node executes exactly once and only after all three
branches; the final state is independent of the completion order, each
translation field holds its branch's (non-empty) output, and
`aggregated_result` contains all three translations plus the original
`source_content`. -/
theorem c1_aggregator_after_all_branches (llm : LLM) (content : String)
    (order : List Lab6.BranchNode) (hperm : order.Perm Lab6.allBranches)
    (hC : Lab6.chinese_text llm (Lab6.initialTranslationState content) ≠ "")
    (hJ : Lab6.japanese_text llm (Lab6.initialTranslationState content) ≠ "")
    (hF : Lab6.french_text llm (Lab6.initialTranslationState content) ≠ "") :
    ((Lab6.runTranslationWorkflow llm order (Lab6.initialTranslationState content)).2).count
        "aggregator" = 1 ∧
    ((Lab6.runTranslationWorkflow llm order
        (Lab6.initialTranslationState content)).2).getLast? = some "aggregator" ∧
    (∀ b : Lab6.BranchNode, Lab6.branchName b ∈
      ((Lab6.runTranslationWorkflow llm order
        (Lab6.initialTranslationState content)).2).dropLast) ∧
    (Lab6.runTranslationWorkflow llm order (Lab6.initialTranslationState content)).1 =
      (Lab6.runTranslationWorkflow llm Lab6.allBranches
        (Lab6.initialTranslationState content)).1 ∧
    (Lab6.runTranslationWorkflow llm order
        (Lab6.initialTranslationState content)).1.chinese_translation =
      Lab6.chinese_text llm (Lab6.initialTranslationState content) ∧
    (Lab6.runTranslationWorkflow llm order
        (Lab6.initialTranslationState content)).1.japanese_translation =
      Lab6.japanese_text llm (Lab6.initialTranslationState content) ∧
    (Lab6.runTranslationWorkflow llm order
        (Lab6.initialTranslationState content)).1.french_translation =
      Lab6.french_text llm (Lab6.initialTranslationState content) ∧
    (Lab6.runTranslationWorkflow llm order
        (Lab6.initialTranslationState content)).1.chinese_translation ≠ "" ∧
    (Lab6.runTranslationWorkflow llm order
        (Lab6.initialTranslationState content)).1.japanese_translation ≠ "" ∧
    (Lab6.runTranslationWorkflow llm order
        (Lab6.initialTranslationState content)).1.french_translation ≠ "" ∧
    ContainsStr content
      ((Lab6.runTranslationWorkflow llm order
        (Lab6.initialTranslationState content)).1.aggregated_result) ∧
    ContainsStr (Lab6.chinese_text llm (Lab6.initialTranslationState content))
      ((Lab6.runTranslationWorkflow llm order
        (Lab6.initialTranslationState content)).1.aggregated_result) ∧
    ContainsStr (Lab6.japanese_text llm (Lab6.initialTranslationState content))
      ((Lab6.runTranslationWorkflow llm order
        (Lab6.initialTranslationState content)).1.aggregated_result) ∧
    ContainsStr (Lab6.french_text llm (Lab6.initialTranslationState content))
      ((Lab6.runTranslationWorkflow llm order
        (Lab6.initialTranslationState content)).1.aggregated_result) := by
  have hE : Lab6.mergeBranches llm (Lab6.initialTranslationState content) order
      (Lab6.initialTranslationState content) =
      { source_content := content
        chinese_translation := Lab6.chinese_text llm (Lab6.initialTranslationState content)
        japanese_translation := Lab6.japanese_text llm (Lab6.initialTranslationState content)
        french_translation := Lab6.french_text llm (Lab6.initialTranslationState content)
        aggregated_result := "" } := by
    rw [lab6_merged_eq llm _ order hperm]
    rfl
  have hE' : Lab6.mergeBranches llm (Lab6.initialTranslationState content) Lab6.allBranches
      (Lab6.initialTranslationState content) =
      { source_content := content
        chinese_translation := Lab6.chinese_text llm (Lab6.initialTranslationState content)
        japanese_translation := Lab6.japanese_text llm (Lab6.initialTranslationState content)
        french_translation := Lab6.french_text llm (Lab6.initialTranslationState content)
        aggregated_result := "" } := by
    rw [lab6_merged_eq llm _ _ (List.Perm.refl _)]
    rfl
  have hrun1 : (Lab6.runTranslationWorkflow llm order (Lab6.initialTranslationState content)).1 =
      Lab6.applyUpdate
        { source_content := content
          chinese_translation := Lab6.chinese_text llm (Lab6.initialTranslationState content)
          japanese_translation := Lab6.japanese_text llm (Lab6.initialTranslationState content)
          french_translation := Lab6.french_text llm (Lab6.initialTranslationState content)
          aggregated_result := "" }
        (Lab6.aggregator
          { source_content := content
            chinese_translation := Lab6.chinese_text llm (Lab6.initialTranslationState content)
            japanese_translation := Lab6.japanese_text llm (Lab6.initialTranslationState content)
            french_translation := Lab6.french_text llm (Lab6.initialTranslationState content)
            aggregated_result := "" }) := by
    show Lab6.applyUpdate
        (Lab6.mergeBranches llm (Lab6.initialTranslationState content) order
          (Lab6.initialTranslationState content))
        (Lab6.aggregator (Lab6.mergeBranches llm (Lab6.initialTranslationState content) order
          (Lab6.initialTranslationState content))) = _
    rw [hE]
  have hrun2 : (Lab6.runTranslationWorkflow llm Lab6.allBranches
      (Lab6.initialTranslationState content)).1 =
      Lab6.applyUpdate
        { source_content := content
          chinese_translation := Lab6.chinese_text llm (Lab6.initialTranslationState content)
          japanese_translation := Lab6.japanese_text llm (Lab6.initialTranslationState content)
          french_translation := Lab6.french_text llm (Lab6.initialTranslationState content)
          aggregated_result := "" }
        (Lab6.aggregator
          { source_content := content
            chinese_translation := Lab6.chinese_text llm (Lab6.initialTranslationState content)
            japanese_translation := Lab6.japanese_text llm (Lab6.initialTranslationState content)
            french_translation := Lab6.french_text llm (Lab6.initialTranslationState content)
            aggregated_result := "" }) := by
    show Lab6.applyUpdate
        (Lab6.mergeBranches llm (Lab6.initialTranslationState content) Lab6.allBranches
          (Lab6.initialTranslationState content))
        (Lab6.aggregator (Lab6.mergeBranches llm (Lab6.initialTranslationState content)
          Lab6.allBranches (Lab6.initialTranslationState content))) = _
    rw [hE']
  have htrace : (Lab6.runTranslationWorkflow llm order
      (Lab6.initialTranslationState content)).2 =
      order.map Lab6.branchName ++ ["aggregator"] := rfl
  have hagg : (Lab6.runTranslationWorkflow llm order
      (Lab6.initialTranslationState content)).1.aggregated_result =
      "\n" ++ strRepeat '=' 60 ++ "\n多語言翻譯結果彙整\n" ++ strRepeat '=' 60 ++
      "\n\n【原文 (English)】\n" ++ content ++
      "\n\n" ++ strRepeat '─' 60 ++ "\n\n【繁體中文翻譯】\n" ++
        Lab6.chinese_text llm (Lab6.initialTranslationState content) ++
      "\n\n" ++ strRepeat '─' 60 ++ "\n\n【日本語翻訳】\n" ++
        Lab6.japanese_text llm (Lab6.initialTranslationState content) ++
      "\n\n" ++ strRepeat '─' 60 ++ "\n\n【Traduction française】\n" ++
        Lab6.french_text llm (Lab6.initialTranslationState content) ++
      "\n\n" ++ strRepeat '=' 60 ++ "\n翻譯完成！共產生 3 種語言版本。\n" ++
        strRepeat '=' 60 ++ "\n" := by
    rw [hrun1]
    rfl
  have hcount : (order.map Lab6.branchName).count "aggregator" = 0 := by
    rw [List.count_eq_zero]
    intro hmem
    obtain ⟨b, _, hb⟩ := List.mem_map.mp hmem
    cases b <;> simp [Lab6.branchName] at hb
  refine ⟨?_, ?_, ?_, ?_, ?_, ?_, ?_, ?_, ?_, ?_, ?_, ?_, ?_, ?_⟩
  · rw [htrace, List.count_append, hcount]
    simp
  · rw [htrace]
    simp
  · intro b
    have hb : b ∈ order := hperm.mem_iff.mpr (by cases b <;> decide)
    rw [htrace]
    simpa using List.mem_map_of_mem Lab6.branchName hb
  · rw [hrun1, hrun2]
  · rw [hrun1]
    rfl
  · rw [hrun1]
    rfl
  · rw [hrun1]
    rfl
  · rw [hrun1]
    exact hC
  · rw [hrun1]
    exact hJ
  · rw [hrun1]
    exact hF
  · rw [hagg]
    refine ⟨"\n" ++ strRepeat '=' 60 ++ "\n多語言翻譯結果彙整\n" ++ strRepeat '=' 60 ++
      "\n\n【原文 (English)】\n",
      "\n\n" ++ strRepeat '─' 60 ++ "\n\n【繁體中文翻譯】\n" ++
        Lab6.chinese_text llm (Lab6.initialTranslationState content) ++
      "\n\n" ++ strRepeat '─' 60 ++ "\n\n【日本語翻訳】\n" ++
        Lab6.japanese_text llm (Lab6.initialTranslationState content) ++
      "\n\n" ++ strRepeat '─' 60 ++ "\n\n【Traduction française】\n" ++
        Lab6.french_text llm (Lab6.initialTranslationState content) ++
      "\n\n" ++ strRepeat '=' 60 ++ "\n翻譯完成！共產生 3 種語言版本。\n" ++
        strRepeat '=' 60 ++ "\n", ?_⟩
    simp only [String.append_assoc]
  · rw [hagg]
    refine ⟨"\n" ++ strRepeat '=' 60 ++ "\n多語言翻譯結果彙整\n" ++ strRepeat '=' 60 ++
      "\n\n【原文 (English)】\n" ++ content ++
      "\n\n" ++ strRepeat '─' 60 ++ "\n\n【繁體中文翻譯】\n",
      "\n\n" ++ strRepeat '─' 60 ++ "\n\n【日本語翻訳】\n" ++
        Lab6.japanese_text llm (Lab6.initialTranslationState content) ++
      "\n\n" ++ strRepeat '─' 60 ++ "\n\n【Traduction française】\n" ++
        Lab6.french_text llm (Lab6.initialTranslationState content) ++
      "\n\n" ++ strRepeat '=' 60 ++ "\n翻譯完成！共產生 3 種語言版本。\n" ++
        strRepeat '=' 60 ++ "\n", ?_⟩
    simp only [String.append_assoc]
  · rw [hagg]
    refine ⟨"\n" ++ strRepeat '=' 60 ++ "\n多語言翻譯結果彙整\n" ++ strRepeat '=' 60 ++
      "\n\n【原文 (English)】\n" ++ content ++
      "\n\n" ++ strRepeat '─' 60 ++ "\n\n【繁體中文翻譯】\n" ++
        Lab6.chinese_text llm (Lab6.initialTranslationState content) ++
      "\n\n" ++ strRepeat '─' 60 ++ "\n\n【日本語翻訳】\n",
      "\n\n" ++ strRepeat '─' 60 ++ "\n\n【Traduction française】\n" ++
        Lab6.french_text llm (Lab6.initialTranslationState content) ++
      "\n\n" ++ strRepeat '=' 60 ++ "\n翻譯完成！共產生 3 種語言版本。\n" ++
        strRepeat '=' 60 ++ "\n", ?_⟩
    simp only [String.append_assoc]
  · rw [hagg]
    refine ⟨"\n" ++ strRepeat '=' 60 ++ "\n多語言翻譯結果彙整\n" ++ strRepeat '=' 60 ++
      "\n\n【原文 (English)】\n" ++ content ++
      "\n\n" ++ strRepeat '─' 60 ++ "\n\n【繁體中文翻譯】\n" ++
        Lab6.chinese_text llm (Lab6.initialTranslationState content) ++
      "\n\n" ++ strRepeat '─' 60 ++ "\n\n【日本語翻訳】\n" ++
        Lab6.japanese_text llm (Lab6.initialTranslationState content) ++
      "\n\n" ++ strRepeat '─' 60 ++ "\n\n【Traduction française】\n",
      "\n\n" ++ strRepeat '=' 60 ++ "\n翻譯完成！共產生 3 種語言版本。\n" ++
        strRepeat '=' 60 ++ "\n", ?_⟩
    simp only [String.append_assoc]

/-- Witness for C1 at a concrete content, collaborator and completion
order (the canonical one; the theorem covers every permutation). -/
theorem c1_aggregator_after_all_branches_witness :
    ((Lab6.runTranslationWorkflow (fun _ => "譯文") Lab6.allBranches
        (Lab6.initialTranslationState "Hello")).2).count "aggregator" = 1 ∧
    ContainsStr "Hello"
      ((Lab6.runTranslationWorkflow (fun _ => "譯文") Lab6.allBranches
        (Lab6.initialTranslationState "Hello")).1.aggregated_result) :=
  ⟨(c1_aggregator_after_all_branches (fun _ => "譯文") "Hello" Lab6.allBranches
      (List.Perm.refl _) (by decide) (by decide) (by decide)).1,
   (c1_aggregator_after_all_branches (fun _ => "譯文") "Hello" Lab6.allBranches
      (List.Perm.refl _) (by decide) (by decide)
      (by decide)).2.2.2.2.2.2.2.2.2.2.1⟩
